import Mathlib

/-!
Verification of `update_status.py` (okfn/cachet-uptime-robot).

Shallow embedding conventions:

* Cachet `created_at` strings in the fixed format `%Y-%m-%d %H:%M:%S` are
  modelled by their UTC epoch value (an `Int`).  `datetime.strptime` on such a
  string followed by comparison of the resulting naive datetimes agrees with
  comparison of the epoch values, so `max` over parsed datetimes is `max` over
  these `Int` encodings, and `_date_str_to_unixtime` (strptime, attach
  `timezone.utc`, `.timestamp()`, `int`) is the identity on this encoding.
* `datetime.now().date()` reads the LOCAL calendar day of the machine clock;
  we model a clock reading as a UTC epoch instant plus a timezone offset in
  seconds, and a calendar day as its day number (floor of epoch / 86400).
  `date.strftime('%Y-%m-%d %H:%M:%S')` renders the day at time 00:00:00, so
  under the encoding above it is `86400 * day`.
* Remote HTTP exchanges are modelled by an environment of response functions;
  a call either returns a decoded payload or raises a Python exception
  (`Except String`).  `sys.exit(1)` raises `SystemExit`, which is NOT an
  `Exception` subclass, so the two kinds of raise are kept distinct in `PyErr`.
* Runs record the requests they issue as a trace of `Effect`s, in order of
  emission; a request that raises is still recorded as issued.
* Numeric monitor/metric values are modelled as `Int`; the program only passes
  them through, never computes with them.
-/

/-- Python exceptions, split as the `try/except Exception` in `Monitor.update`
splits them: `exc` is any `Exception` subclass (caught), `systemExit` is
`SystemExit` as raised by `sys.exit(n)` (a `BaseException`, not caught). -/
inductive PyErr where
  | exc (msg : String)
  | systemExit (code : Nat)
deriving DecidableEq, Repr

/-- One HTTP request issued against an external service. -/
inductive Effect where
  | fetchMonitors
  | getComponent (id : String)
  | putComponent (id : String) (status : Int)
  | getPoints (metricId : String)
  | postPoint (metricId : String) (value : Int) (timestamp : Int)
deriving DecidableEq, Repr

/-- One entry of a monitors `response_times` list: `{datetime, value}` with
`datetime` a Unix epoch second. -/
structure ResponseTime where
  datetime : Int
  value : Int
deriving DecidableEq, Repr

/-- One monitor as returned by the UptimeRobot `getMonitors` call:
`{id, friendly_name, url, status, response_times}`. -/
structure MonitorData where
  id : Nat
  friendly_name : String
  url : String
  status : Int
  response_times : List ResponseTime
deriving DecidableEq, Repr

/-- One route entry built by `parse_config` for a non-reserved section.
`metric_id` and `component_id` come from `.get(...)` and may be absent. -/
structure WebsiteConfig where
  cachet_api_key : String
  cachet_url : String
  metric_id : Option String
  component_id : Option String
deriving DecidableEq, Repr

/-- One stored Cachet metric point `{value, created_at}`; `created_at` is the
epoch encoding of the timestamp string (see file header).  The sentinel dict
synthesized for an empty metric has no `value` key, hence the `Option`. -/
structure MetricPoint where
  value : Option Int := none
  created_at : Int
deriving DecidableEq, Repr

/-- Python truthiness of an optional string (`website_config.get(key)`):
falsy when the key is absent or its value is the empty string. -/
def truthyOptStr : Option String → Bool
  | none => false
  | some s => s ≠ ""

/-- `self.monitor_list[url]` lookup (first matching key). -/
def lookupRoute (ml : List (String × WebsiteConfig)) (url : String) : Option WebsiteConfig :=
  (ml.find? (fun p => p.1 = url)).map (fun p => p.2)

/-! ## UptimeRobot.get_monitors (logical success test, lines 60-65)

The decoded JSON payload is modelled as an association list of JSON values;
only truthiness and equality with the string `ok` are needed. -/

/-- A decoded JSON value (the shapes relevant to the `stat` field). -/
inductive JVal where
  | jstr (s : String)
  | jnum (n : Int)
  | jbool (b : Bool)
  | jnull
deriving DecidableEq, Repr

/-- Python truthiness of a JSON value. -/
def jtruthy : JVal → Bool
  | .jstr s => s ≠ ""
  | .jnum n => n ≠ 0
  | .jbool b => b
  | .jnull => false

/-- `dict.get(key)`: `none` when absent. -/
def dictGet (d : List (String × JVal)) (k : String) : Option JVal :=
  (d.find? (fun p => p.1 = k)).map (fun p => p.2)

/-- Python truthiness of `dict.get(key)` (`None` is falsy). -/
def dictGetTruthy (d : List (String × JVal)) (k : String) : Bool :=
  match dictGet d k with
  | none => false
  | some v => jtruthy v

/-- Lines 60-65 of `UptimeRobot.get_monitors`: after decoding the response
body to `j_content`, test `j_content.get('stat')` for truthiness, then compare
with the string `ok`; return `(True, j_content)` on match, else
`(False, j_content)`. -/
def get_monitors_result (j_content : List (String × JVal)) :
    Bool × List (String × JVal) :=
  if dictGetTruthy j_content "stat" then
    if dictGet j_content "stat" = some (.jstr "ok") then (true, j_content)
    else (false, j_content)
  else (false, j_content)

/-! ## Status mapping (CachetHq.update_component, lines 86-99) -/

def UPTIME_ROBOT_PAUSED : Int := 0
def UPTIME_ROBOT_NOT_CHECKED_YET : Int := 1
def UPTIME_ROBOT_UP : Int := 2
def UPTIME_ROBOT_SEEMS_DOWN : Int := 8
def UPTIME_ROBOT_DOWN : Int := 9

def CACHET_OPERATIONAL : Int := 1
def CACHET_PERFORMANCE_ISSUES : Int := 2
def CACHET_SEEMS_DOWN : Int := 3
def CACHET_DOWN : Int := 4

/-- The `component_status` computed by the if/elif chain at the top of
`update_component` (`None` when no branch matches). -/
def mapStatus (status : Int) : Option Int :=
  if status = UPTIME_ROBOT_NOT_CHECKED_YET ∨ status = UPTIME_ROBOT_UP then
    some CACHET_OPERATIONAL
  else if status = UPTIME_ROBOT_SEEMS_DOWN then some CACHET_SEEMS_DOWN
  else if status = UPTIME_ROBOT_DOWN then some CACHET_DOWN
  else none

/-- Responses of the two remote services, plus the machine clock day.  Each
field models one kind of HTTP exchange: a `.error` means the underlying
`urlopen`/decode raised an `Exception`. -/
structure RemoteEnv where
  /-- `GET /api/v1/components/{id}` followed by
  `component.get('data', {}).get('status')`: the status field of the
  component, `none` when absent from the payload. -/
  componentStatus : String → Except String (Option Int)
  /-- `PUT /api/v1/components/{id}` with body `{status}`. -/
  putComponent : String → Int → Except String Unit
  /-- The paginated `GET /api/v1/metrics/{id}/points` store: the list of
  pages (page n is entry n-1), as seen by the two GETs of
  `get_last_metric_point`; `meta.pagination.total_pages` is its length. -/
  metricPages : String → Except String (List (List MetricPoint))
  /-- `POST /api/v1/metrics/{id}/points` with body `{value, timestamp}`. -/
  postPoint : String → Int → Int → Except String Unit
  /-- `datetime.now().date()` as a day number: the LOCAL calendar day of the
  machine clock at the time of the run. -/
  localToday : Int

/-- `CachetHq.update_component` (lines 86-127), with the component status
read supplied by the environment.  Returns the trace of issued requests and
either normal return or the raised exception.  The Python guard
`if component_status:` is the `none` match plus the zero test (no mapped
value is zero, but the test is the truthiness the code performs). -/
def update_component_run (env : RemoteEnv) (id_component : String) (status : Int) :
    List Effect × Except String Unit :=
  match mapStatus status with
  | none => ([], .ok ())
  | some component_status =>
    if component_status = 0 then ([], .ok ())
    else
      match env.componentStatus id_component with
      | .error e => ([.getComponent id_component], .error e)
      | .ok current_component_status =>
        if current_component_status = some component_status then
          ([.getComponent id_component], .ok ())
        else
          match env.putComponent id_component component_status with
          | .error e =>
            ([.getComponent id_component, .putComponent id_component component_status], .error e)
          | .ok _ =>
            ([.getComponent id_component, .putComponent id_component component_status], .ok ())

/-! ## CachetHq.get_last_metric_point (lines 148-182) -/

/-- `max` of a nonempty list of datetimes (Python `max` keeps the first of
equal elements; for the `Int` encoding only the value matters). -/
def listMax : List Int → Option Int
  | [] => none
  | x :: xs => some (xs.foldl max x)

/-- The selection performed on the last page when its `data` is nonempty:
parse every `created_at`, take the maximum, and return the datum at the FIRST
index attaining it (`created_at_dates.index(max(created_at_dates))`). -/
def selectLatest (data : List MetricPoint) : Option MetricPoint :=
  match listMax (data.map (fun d => d.created_at)) with
  | none => none
  | some m => data.find? (fun d => d.created_at = m)

/-- Day number of the LOCAL calendar day for a clock reading: UTC epoch
instant `nowUtc`, machine timezone offset `tzOffset` seconds
(`datetime.now().date()`). -/
def localDay (nowUtc tzOffset : Int) : Int := (nowUtc + tzOffset).fdiv 86400

/-- Day number of the UTC calendar day of a clock reading. -/
def utcDay (nowUtc : Int) : Int := nowUtc.fdiv 86400

/-- `CachetHq.get_last_metric_point`, given the paginated point store and the
local calendar day.  The first GET reads `meta.pagination.total_pages`
(= number of pages); the second GET fetches that last page; a nonempty page
yields its first maximal-`created_at` point, an empty one yields the sentinel
dict whose only key is `created_at`, rendered from the local date at
00:00:00 — i.e. `86400 * localToday` under the epoch encoding. -/
def get_last_metric_point (pages : List (List MetricPoint)) (localToday : Int) :
    MetricPoint :=
  let last_page := pages.length
  let data := pages.getD (last_page - 1) []
  match selectLatest data with
  | some d => d
  | none => { value := none, created_at := 86400 * localToday }

/-- `Monitor._date_str_to_unixtime` (lines 288-293): strptime with the fixed
format, attach `timezone.utc`, `.timestamp()`, truncate to `int`.  On the
epoch encoding of `created_at` strings this is the identity. -/
def _date_str_to_unixtime (created_at : Int) : Int := created_at

/-! ## Monitor.sync_metric (lines 232-254) and the per-monitor run -/

/-- `Monitor._get_website_config` (lines 281-286): dict lookup by the monitor
URL; a missing key is caught and turned into `sys.exit(1)`, i.e. a raised
`SystemExit`. -/
def _get_website_config (ml : List (String × WebsiteConfig)) (m : MonitorData) :
    Except PyErr WebsiteConfig :=
  match lookupRoute ml m.url with
  | some c => .ok c
  | none => .error (.systemExit 1)

/-- The `for response_time in response_times:` loop of `sync_metric`: one
`POST .../points` per sample, in list order, stopping at the first raise. -/
def postAll (env : RemoteEnv) (mid : String) :
    List ResponseTime → List Effect × Except PyErr Unit
  | [] => ([], .ok ())
  | r :: rs =>
    match env.postPoint mid r.value r.datetime with
    | .error e => ([.postPoint mid r.value r.datetime], .error (.exc e))
    | .ok _ =>
      let rest := postAll env mid rs
      (.postPoint mid r.value r.datetime :: rest.1, rest.2)

/-- `Monitor.sync_metric`: look the route up again, read the last metric
point (the two paginated GETs are modelled as one `getPoints` exchange
returning the page list), convert its `created_at` to epoch seconds, keep the
strictly newer samples, sort them ascending by `datetime` (Python stable sort
by key, modelled by `List.mergeSort`), and post each in order. -/
def sync_metric_run (env : RemoteEnv) (ml : List (String × WebsiteConfig))
    (m : MonitorData) : List Effect × Except PyErr Unit :=
  match _get_website_config ml m with
  | .error e => ([], .error e)
  | .ok website_config =>
    let mid := website_config.metric_id.getD ""
    match env.metricPages mid with
    | .error e => ([.getPoints mid], .error (.exc e))
    | .ok pages =>
      let latest_metric := get_last_metric_point pages env.localToday
      let unixtime := _date_str_to_unixtime latest_metric.created_at
      let response_times :=
        (m.response_times.filter (fun x => unixtime < x.datetime)).mergeSort
          (fun a b => a.datetime ≤ b.datetime)
      let posts := postAll env mid response_times
      (.getPoints mid :: posts.1, posts.2)

/-- `Monitor.send_data_to_cachet` (lines 212-230): fetch the route (may raise
`SystemExit`), then the component half when `component_id` is truthy, then
the metric half when `metric_id` is truthy.  Exceptions from the component
half propagate before the metric half runs. -/
def send_data_to_cachet_run (env : RemoteEnv) (ml : List (String × WebsiteConfig))
    (m : MonitorData) : List Effect × Except PyErr Unit :=
  match _get_website_config ml m with
  | .error e => ([], .error e)
  | .ok website_config =>
    let comp :=
      if truthyOptStr website_config.component_id then
        update_component_run env (website_config.component_id.getD "") m.status
      else ([], .ok ())
    match comp.2 with
    | .error e => (comp.1, .error (.exc e))
    | .ok _ =>
      if truthyOptStr website_config.metric_id then
        let sync := sync_metric_run env ml m
        (comp.1 ++ sync.1, sync.2)
      else (comp.1, .ok ())

/-! ## Monitor.update (lines 256-279), parse_config and main -/

/-- What the `update` loop did with one fetched monitor. -/
inductive Outcome where
  /-- `monitor['url'] not in self.monitor_list`: silently skipped. -/
  | skipped (url : String)
  /-- Tracked and `send_data_to_cachet` returned normally; the trace it
  issued is recorded. -/
  | processed (name : String) (tr : List Effect)
  /-- Tracked and `send_data_to_cachet` raised an `Exception`; caught by the
  `except Exception:` handler and logged with the display name. -/
  | failedLogged (name : String) (msg : String)
deriving DecidableEq, Repr

/-- The `for monitor in monitors:` loop of `Monitor.update`.  The membership
test guards entry; inside, `send_data_to_cachet` runs under
`try/except Exception`, so an `exc` failure is logged and the loop continues,
while a `systemExit` propagates and aborts the loop. -/
def updateLoop (env : RemoteEnv) (ml : List (String × WebsiteConfig)) :
    List MonitorData → List Effect × Except PyErr (List Outcome)
  | [] => ([], .ok [])
  | m :: rest =>
    if (lookupRoute ml m.url).isSome then
      let r := send_data_to_cachet_run env ml m
      match r.2 with
      | .ok _ =>
        let k := updateLoop env ml rest
        (r.1 ++ k.1, k.2.map (fun os => .processed m.friendly_name r.1 :: os))
      | .error (.exc e) =>
        let k := updateLoop env ml rest
        (r.1 ++ k.1, k.2.map (fun os => .failedLogged m.friendly_name e :: os))
      | .error (.systemExit c) => (r.1, .error (.systemExit c))
    else
      let k := updateLoop env ml rest
      (k.1, k.2.map (fun os => .skipped m.url :: os))

/-- The outcome the loop records for one monitor, considered in isolation.
The `systemExit` branch is unreachable for any monitor the loop lets through
(proved below); `skipped` there is a placeholder that would falsify the
loop-equals-map lemma were the branch ever taken. -/
def procOne (env : RemoteEnv) (ml : List (String × WebsiteConfig))
    (m : MonitorData) : Outcome :=
  if (lookupRoute ml m.url).isSome then
    match (send_data_to_cachet_run env ml m).2 with
    | .ok _ => .processed m.friendly_name (send_data_to_cachet_run env ml m).1
    | .error (.exc e) => .failedLogged m.friendly_name e
    | .error (.systemExit _) => .skipped m.url
  else .skipped m.url

/-- Result of a whole `update` run. -/
inductive RunLog where
  /-- `get_monitors` returned a non-ok stat: one error line, nothing
  processed. -/
  | noData
  /-- The per-monitor loop ran to completion with these outcomes. -/
  | ran (os : List Outcome)
deriving DecidableEq, Repr

/-- `Monitor.update`: issue the `getMonitors` POST; a transport raise
propagates; on logical failure log and stop; on success run the loop over
`response.get('monitors')`.  The fetch outcome abstracts the
`uptime_robot.get_monitors(response_times=1)` call: `.error` is a raised
transport exception, `.ok (success, monitors)` the returned pair with the
decoded `monitors` list. -/
def update_run (env : RemoteEnv) (ml : List (String × WebsiteConfig))
    (fetch : Except String (Bool × List MonitorData)) :
    List Effect × Except PyErr RunLog :=
  match fetch with
  | .error e => ([.fetchMonitors], .error (.exc e))
  | .ok (success, monitors) =>
    if success then
      let k := updateLoop env ml monitors
      (.fetchMonitors :: k.1, k.2.map .ran)
    else ([.fetchMonitors], .ok .noData)

/-- One section of the parsed configuration file: name and key-value pairs. -/
structure ConfigSection where
  name : String
  entries : List (String × String)
deriving DecidableEq, Repr

/-- `config[element][key]`: a missing required key raises `KeyError`. -/
def requiredKey (es : List (String × String)) (k : String) : Except PyErr String :=
  match (es.find? (fun p => p.1 = k)).map (fun p => p.2) with
  | some v => .ok v
  | none => .error (.exc ("KeyError: " ++ k))

/-- `config[element].get(key)`: `none` when absent. -/
def optionalKey (es : List (String × String)) (k : String) : Option String :=
  (es.find? (fun p => p.1 = k)).map (fun p => p.2)

/-- The `for element in config.sections():` loop of `parse_config`, threading
the accumulated route dict and the UptimeRobot key. -/
def parseSections (acc : List (String × WebsiteConfig)) (key : Option String) :
    List ConfigSection → Except PyErr (List (String × WebsiteConfig) × Option String)
  | [] => .ok (acc, key)
  | s :: rest =>
    if s.name = "uptimeRobot" then
      match requiredKey s.entries "UptimeRobotMainApiKey" with
      | .error e => .error e
      | .ok k => parseSections acc (some k) rest
    else
      match requiredKey s.entries "CachetApiKey" with
      | .error e => .error e
      | .ok apiKey =>
        match requiredKey s.entries "CachetUrl" with
        | .error e => .error e
        | .ok urlV =>
          parseSections
            (acc ++ [(s.name,
              { cachet_api_key := apiKey
                cachet_url := urlV
                metric_id := optionalKey s.entries "MetricId"
                component_id := optionalKey s.entries "ComponentId" })])
            key rest

/-- `parse_config` (lines 317-338): an empty section list is fatal
(`sys.exit(1)`); otherwise build the route dict keyed by section name and
pick up the reserved `uptimeRobot` section key. -/
def parse_config (sections : List ConfigSection) :
    Except PyErr (List (String × WebsiteConfig) × Option String) :=
  if sections = [] then .error (.systemExit 1)
  else parseSections [] none sections

/-- `main` (lines 296-300): parse the configuration, then construct `Monitor`
and run `update`.  A `parse_config` exit propagates before any request is
issued, hence the empty trace on that path. -/
def main_run (sections : List ConfigSection) (env : RemoteEnv)
    (fetch : Except String (Bool × List MonitorData)) :
    List Effect × Except PyErr RunLog :=
  match parse_config sections with
  | .error e => ([], .error e)
  | .ok (ml, _) => update_run env ml fetch

/-- The `(value, timestamp)` pairs of the `postPoint` requests of a trace, in
emission order: the samples actually appended to the metric. -/
def postedSamples (tr : List Effect) : List (Int × Int) :=
  tr.filterMap (fun e =>
    match e with
    | .postPoint _ v t => some (v, t)
    | _ => none)

/-! ## Concrete instances used by the witness theorems -/

/-- Route with a component and no metric. -/
def cfg1 : WebsiteConfig :=
  { cachet_api_key := "k1", cachet_url := "https://status.example",
    metric_id := none, component_id := some "c1" }

/-- Route with the component whose status read raises in `envA`. -/
def cfg2 : WebsiteConfig :=
  { cachet_api_key := "k2", cachet_url := "https://status.example",
    metric_id := none, component_id := some "c2" }

/-- Route with a metric and no component. -/
def cfg3 : WebsiteConfig :=
  { cachet_api_key := "k3", cachet_url := "https://status.example",
    metric_id := some "m3", component_id := none }

/-- Route whose metric has no stored points in `envA`. -/
def cfg0 : WebsiteConfig :=
  { cachet_api_key := "k0", cachet_url := "https://status.example",
    metric_id := some "m0", component_id := none }

/-- A concrete route map with four tracked monitors. -/
def mlA : List (String × WebsiteConfig) :=
  [("http://one.example", cfg1), ("http://two.example", cfg2),
   ("http://three.example", cfg3), ("http://empty.example", cfg0)]

/-- A concrete remote environment: component `c2` raises on read, metric `m0`
has zero stored points, metric `m3` has one point at epoch 150, every write
succeeds, and the machine clock reads local day 7. -/
def envA : RemoteEnv :=
  { componentStatus := fun cid => if cid = "c2" then .error "boom" else .ok (some 1)
    putComponent := fun _ _ => .ok ()
    metricPages := fun mid =>
      if mid = "m0" then .ok [] else .ok [[{ value := some 3, created_at := 150 }]]
    postPoint := fun _ _ _ => .ok ()
    localToday := 7 }

/-- Tracked monitor, up, component route only. -/
def monA1 : MonitorData :=
  { id := 1, friendly_name := "Monitor One", url := "http://one.example",
    status := 2, response_times := [] }

/-- Tracked monitor whose component read raises in `envA`. -/
def monA2 : MonitorData :=
  { id := 2, friendly_name := "Monitor Two", url := "http://two.example",
    status := 9, response_times := [] }

/-- Tracked monitor with samples at epochs 100 and 200 and metric route
`m3` (latest stored point at epoch 150). -/
def monA3 : MonitorData :=
  { id := 3, friendly_name := "Monitor Three", url := "http://three.example",
    status := 2, response_times := [⟨100, 5⟩, ⟨200, 7⟩] }

/-- Tracked monitor feeding the empty metric `m0`; clock local day 7, so the
sentinel cutoff is `86400 * 7 = 604800`. -/
def monA0 : MonitorData :=
  { id := 4, friendly_name := "Monitor Empty", url := "http://empty.example",
    status := 2, response_times := [⟨604700, 1⟩, ⟨604900, 2⟩] }

/-- A fetched monitor with no route entry. -/
def monUn : MonitorData :=
  { id := 5, friendly_name := "Untracked", url := "http://untracked.example",
    status := 9, response_times := [⟨10, 1⟩] }

/-- A two-page point store whose globally latest point (epoch 50) sits on the
last page, out of order within that page. -/
def pagesB : List (List MetricPoint) :=
  [[{ value := some 1, created_at := 10 }],
   [{ value := some 9, created_at := 40 }, { value := some 2, created_at := 50 }]]

/-! ## Lemmas: maximum selection on a page -/

theorem foldl_max_le (xs : List Int) (x : Int) :
    x ≤ xs.foldl max x ∧ ∀ y ∈ xs, y ≤ xs.foldl max x := by
  induction xs generalizing x with
  | nil => simp
  | cons y ys ih =>
    have h := ih (max x y)
    refine ⟨le_trans (le_max_left x y) h.1, ?_⟩
    intro z hz
    rcases List.mem_cons.mp hz with rfl | hz
    · exact le_trans (le_max_right x z) h.1
    · exact h.2 z hz

theorem foldl_max_mem (xs : List Int) (x : Int) :
    xs.foldl max x = x ∨ xs.foldl max x ∈ xs := by
  induction xs generalizing x with
  | nil => simp
  | cons y ys ih =>
    rcases ih (max x y) with h | h
    · rcases max_choice x y with hm | hm
      · left; simp only [List.foldl_cons]; rw [h, hm]
      · right; simp only [List.foldl_cons]; rw [h, hm]; exact List.mem_cons_self y ys
    · right; exact List.mem_cons_of_mem y h

theorem listMax_spec (l : List Int) (m : Int) (h : listMax l = some m) :
    m ∈ l ∧ ∀ x ∈ l, x ≤ m := by
  cases l with
  | nil => simp [listMax] at h
  | cons x xs =>
    simp only [listMax, Option.some.injEq] at h
    subst h
    constructor
    · rcases foldl_max_mem xs x with h | h
      · rw [h]; exact List.mem_cons_self x xs
      · exact List.mem_cons_of_mem x h
    · intro y hy
      rcases List.mem_cons.mp hy with rfl | hy
      · exact (foldl_max_le xs y).1
      · exact (foldl_max_le xs x).2 y hy

theorem selectLatest_spec (data : List MetricPoint) (r : MetricPoint)
    (h : selectLatest data = some r) :
    r ∈ data ∧ ∀ q ∈ data, q.created_at ≤ r.created_at := by
  unfold selectLatest at h
  cases hm : listMax (data.map (fun d => d.created_at)) with
  | none => rw [hm] at h; exact absurd h (by simp)
  | some m =>
    rw [hm] at h
    have hspec := listMax_spec _ _ hm
    have hr : r ∈ data := List.mem_of_find?_eq_some h
    have hp : r.created_at = m := by
      have := List.find?_some h
      exact of_decide_eq_true this
    refine ⟨hr, fun q hq => ?_⟩
    rw [hp]
    exact hspec.2 q.created_at (List.mem_map_of_mem (fun d => d.created_at) hq)

theorem selectLatest_isSome (data : List MetricPoint) (h : data ≠ []) :
    (selectLatest data).isSome := by
  cases data with
  | nil => exact absurd rfl h
  | cons x xs =>
    have hlm : listMax ((x :: xs).map (fun d => d.created_at)) =
        some ((xs.map (fun d => d.created_at)).foldl max x.created_at) := rfl
    have hspec := listMax_spec _ _ hlm
    obtain ⟨r, hr, hrc⟩ := List.mem_map.mp hspec.1
    unfold selectLatest
    rw [hlm]
    rw [List.find?_isSome]
    exact ⟨r, hr, decide_eq_true hrc⟩

theorem get_last_metric_point_sel (pages : List (List MetricPoint)) (localToday : Int)
    (r : MetricPoint) (h : selectLatest (pages.getD (pages.length - 1) []) = some r) :
    get_last_metric_point pages localToday = r := by
  simp only [get_last_metric_point]
  rw [h]

theorem get_last_metric_point_empty (pages : List (List MetricPoint)) (localToday : Int)
    (h : pages.getD (pages.length - 1) [] = []) :
    get_last_metric_point pages localToday =
      { value := none, created_at := 86400 * localToday } := by
  simp only [get_last_metric_point]
  rw [h]
  rfl

/-! ## Lemmas: the metric sync trace -/

theorem postAll_ok (env : RemoteEnv) (mid : String)
    (hpost : ∀ v t, env.postPoint mid v t = .ok ()) (rs : List ResponseTime) :
    postAll env mid rs =
      (rs.map (fun r => Effect.postPoint mid r.value r.datetime), .ok ()) := by
  induction rs with
  | nil => rfl
  | cons r rs ih =>
    simp only [postAll, hpost r.value r.datetime, ih, List.map_cons]

theorem sync_metric_run_eq (env : RemoteEnv) (ml : List (String × WebsiteConfig))
    (m : MonitorData) (cfg : WebsiteConfig) (pages : List (List MetricPoint))
    (hcfg : lookupRoute ml m.url = some cfg)
    (hpages : env.metricPages (cfg.metric_id.getD "") = .ok pages)
    (hpost : ∀ v t, env.postPoint (cfg.metric_id.getD "") v t = .ok ()) :
    sync_metric_run env ml m =
      (Effect.getPoints (cfg.metric_id.getD "") ::
        ((m.response_times.filter (fun x =>
            _date_str_to_unixtime
              (get_last_metric_point pages env.localToday).created_at < x.datetime)).mergeSort
          (fun a b => a.datetime ≤ b.datetime)).map
          (fun r => Effect.postPoint (cfg.metric_id.getD "") r.value r.datetime),
       .ok ()) := by
  unfold sync_metric_run _get_website_config
  rw [hcfg]
  simp only
  rw [hpages]
  simp only
  rw [postAll_ok env _ hpost]

theorem postedSamples_map_posts (mid : String) (rs : List ResponseTime) :
    postedSamples (rs.map (fun r => Effect.postPoint mid r.value r.datetime)) =
      rs.map (fun r => (r.value, r.datetime)) := by
  induction rs with
  | nil => rfl
  | cons r rs ih =>
    simp only [List.map_cons, postedSamples, List.filterMap_cons] at ih ⊢
    rw [ih]

theorem postedSamples_getPoints (mid : String) (tr : List Effect) :
    postedSamples (Effect.getPoints mid :: tr) = postedSamples tr := by
  simp only [postedSamples, List.filterMap_cons]

/-! ## Claim theorems: metric synchronization -/

/-- C1: for a tracked monitor with a metric id, with sample set S and the
cutoff T derived from the created_at of the latest stored metric point, the
samples appended via the point POSTs are exactly those of S with timestamp
strictly greater than T (as a multiset), and they are appended in
non-decreasing timestamp order. -/
theorem C1_metric_dedup_and_ordering
    (env : RemoteEnv) (ml : List (String × WebsiteConfig)) (m : MonitorData)
    (cfg : WebsiteConfig) (pages : List (List MetricPoint))
    (hcfg : lookupRoute ml m.url = some cfg)
    (hpages : env.metricPages (cfg.metric_id.getD "") = .ok pages)
    (hpost : ∀ v t, env.postPoint (cfg.metric_id.getD "") v t = .ok ()) :
    List.Perm (postedSamples (sync_metric_run env ml m).1)
      ((m.response_times.filter (fun x =>
          _date_str_to_unixtime
            (get_last_metric_point pages env.localToday).created_at < x.datetime)).map
        (fun r => (r.value, r.datetime))) ∧
    List.Pairwise (fun a b => a.2 ≤ b.2)
      (postedSamples (sync_metric_run env ml m).1) := by
  have hps : postedSamples (sync_metric_run env ml m).1 =
      ((m.response_times.filter (fun x =>
          _date_str_to_unixtime
            (get_last_metric_point pages env.localToday).created_at < x.datetime)).mergeSort
        (fun a b => a.datetime ≤ b.datetime)).map (fun r => (r.value, r.datetime)) := by
    simp only [sync_metric_run_eq env ml m cfg pages hcfg hpages hpost,
      postedSamples_getPoints, postedSamples_map_posts]
  rw [hps]
  constructor
  · exact List.Perm.map _ (List.mergeSort_perm _ _)
  · rw [List.pairwise_map]
    have hs := @List.sorted_mergeSort ResponseTime
      (fun a b : ResponseTime => decide (a.datetime ≤ b.datetime))
      (fun a b c hab hbc =>
        decide_eq_true (le_trans (of_decide_eq_true hab) (of_decide_eq_true hbc)))
      (fun a b => by
        rcases le_total a.datetime b.datetime with h | h
        · simp [h]
        · simp [h])
      (m.response_times.filter (fun x =>
        _date_str_to_unixtime
          (get_last_metric_point pages env.localToday).created_at < x.datetime))
    exact hs.imp (fun h => of_decide_eq_true h)

/-- C2 counterexample: a two-page store whose globally latest point sits on
the FIRST page.  `get_last_metric_point` only scans the last page, so the
returned point does not carry the globally maximal created_at. -/
theorem C2_counterexample_global_max_missed :
    ¬ (∀ q ∈ ([[{ value := some 1, created_at := 100 }],
          [{ value := some 2, created_at := 50 }]] : List (List MetricPoint)).flatten,
        q.created_at ≤
          (get_last_metric_point
            [[{ value := some 1, created_at := 100 }],
             [{ value := some 2, created_at := 50 }]] 0).created_at) := by
  decide

/-- C2 amended: `get_last_metric_point` returns a maximal-created_at point of
the LAST page; whenever the last page contains a point of globally maximal
created_at (as the provider ordering guarantees), the returned point is a
stored point of globally maximal created_at, on whichever position of the
last page it resides. -/
theorem C2_pagination_last_page_max
    (pages : List (List MetricPoint)) (localToday : Int) (d : MetricPoint)
    (hd : d ∈ pages.getD (pages.length - 1) [])
    (hmax : ∀ q ∈ pages.flatten, q.created_at ≤ d.created_at) :
    get_last_metric_point pages localToday ∈ pages.flatten ∧
    ∀ q ∈ pages.flatten,
      q.created_at ≤ (get_last_metric_point pages localToday).created_at := by
  have hne : pages.getD (pages.length - 1) [] ≠ [] := by
    intro h
    rw [h] at hd
    exact absurd hd (List.not_mem_nil d)
  obtain ⟨r, hr⟩ := Option.isSome_iff_exists.mp (selectLatest_isSome _ hne)
  have hspec := selectLatest_spec _ _ hr
  have hg := get_last_metric_point_sel pages localToday r hr
  have hpagesne : pages ≠ [] := by
    intro h
    subst h
    exact hne rfl
  have hlt : pages.length - 1 < pages.length := by
    cases pages with
    | nil => exact absurd rfl hpagesne
    | cons a l => simp
  have hmem : pages.getD (pages.length - 1) [] ∈ pages := by
    rw [List.getD_eq_getElem pages [] hlt]
    exact List.getElem_mem hlt
  rw [hg]
  constructor
  · exact List.mem_flatten.mpr ⟨_, hmem, hspec.1⟩
  · intro q hq
    exact le_trans (hmax q hq) (hspec.2 d hd)

/-- C3 counterexample: at the clock reading with UTC epoch 0 and timezone
offset +86400 seconds, the machine local calendar day is day 1, so the
sentinel for an empty metric is stamped 86400, while the start of the current
UTC calendar day is 0.  The claimed "today at UTC midnight" value is wrong
whenever local and UTC day differ, because the code reads
`datetime.now().date()`, the LOCAL date. -/
theorem C3_counterexample_not_utc_midnight :
    (get_last_metric_point [] (localDay 0 86400)).created_at = 86400 ∧
    86400 * utcDay 0 = 0 ∧
    (get_last_metric_point [] (localDay 0 86400)).created_at ≠ 86400 * utcDay 0 := by
  decide

/-- C3 amended: when the fetched last page is empty, the sentinel is stamped
at 00:00:00 of the machine LOCAL calendar day, interpreted as UTC (epoch
`86400 * localDay`), and only samples with timestamp strictly greater than
that cutoff are appended. -/
theorem C3_empty_metric_bootstrap_local_day
    (env : RemoteEnv) (ml : List (String × WebsiteConfig)) (m : MonitorData)
    (cfg : WebsiteConfig) (pages : List (List MetricPoint)) (nowUtc tzOffset : Int)
    (hcfg : lookupRoute ml m.url = some cfg)
    (hpages : env.metricPages (cfg.metric_id.getD "") = .ok pages)
    (hempty : pages.getD (pages.length - 1) [] = [])
    (hclock : env.localToday = localDay nowUtc tzOffset)
    (hpost : ∀ v t, env.postPoint (cfg.metric_id.getD "") v t = .ok ()) :
    (get_last_metric_point pages env.localToday).created_at =
      86400 * localDay nowUtc tzOffset ∧
    ∀ p ∈ postedSamples (sync_metric_run env ml m).1,
      86400 * localDay nowUtc tzOffset < p.2 := by
  have hsent := get_last_metric_point_empty pages env.localToday hempty
  constructor
  · rw [hsent, hclock]
  · intro p hp
    simp only [sync_metric_run_eq env ml m cfg pages hcfg hpages hpost,
      postedSamples_getPoints, postedSamples_map_posts] at hp
    obtain ⟨r, hr, rfl⟩ := List.mem_map.mp hp
    rw [List.mem_mergeSort] at hr
    have hx := of_decide_eq_true (List.mem_filter.mp hr).2
    rw [hsent] at hx
    simpa [_date_str_to_unixtime, hclock] using hx

/-! ## Claim theorems: component status mapping and idempotence -/

/-- C4: provider codes 1 (not yet checked) and 2 (up) map to operational (1),
8 (seems down) to the degraded status (3), 9 (down) to major outage (4); any
other code — including paused (0) — has no mapping, and `update_component`
performs no component read and no write for it. -/
theorem C4_status_mapping_totality :
    mapStatus UPTIME_ROBOT_NOT_CHECKED_YET = some CACHET_OPERATIONAL ∧
    mapStatus UPTIME_ROBOT_UP = some CACHET_OPERATIONAL ∧
    mapStatus UPTIME_ROBOT_SEEMS_DOWN = some CACHET_SEEMS_DOWN ∧
    mapStatus UPTIME_ROBOT_DOWN = some CACHET_DOWN ∧
    ∀ (env : RemoteEnv) (c : String) (s : Int),
      s ≠ UPTIME_ROBOT_NOT_CHECKED_YET → s ≠ UPTIME_ROBOT_UP →
      s ≠ UPTIME_ROBOT_SEEMS_DOWN → s ≠ UPTIME_ROBOT_DOWN →
      mapStatus s = none ∧ update_component_run env c s = ([], .ok ()) := by
  refine ⟨rfl, rfl, rfl, rfl, ?_⟩
  intro env c s h1 h2 h8 h9
  have hm : mapStatus s = none := by
    unfold mapStatus
    rw [if_neg (fun h => h.elim h1 h2), if_neg h8, if_neg h9]
  exact ⟨hm, by simp only [update_component_run, hm]⟩

/-- C5: when the mapped target status is defined, the current component
status is read first (the GET heads every trace), no PUT is issued when the
current status equals the target, and the PUT is issued exactly when they
differ. -/
theorem C5_idempotence_guard
    (env : RemoteEnv) (c : String) (s : Int) (cs : Int) (cur : Option Int)
    (hmap : mapStatus s = some cs)
    (hread : env.componentStatus c = .ok cur) :
    (cur = some cs →
      (update_component_run env c s).1 = [Effect.getComponent c]) ∧
    (cur ≠ some cs →
      (update_component_run env c s).1 =
        [Effect.getComponent c, Effect.putComponent c cs]) ∧
    (∀ i v, Effect.putComponent i v ∈ (update_component_run env c s).1 →
      cur ≠ some cs) := by
  have hcs0 : cs ≠ 0 := by
    unfold mapStatus at hmap
    split_ifs at hmap with h1 h8 h9
    · injection hmap with h
      subst h
      decide
    · injection hmap with h
      subst h
      decide
    · injection hmap with h
      subst h
      decide
  have key : (update_component_run env c s).1 =
      if cur = some cs then [Effect.getComponent c]
      else [Effect.getComponent c, Effect.putComponent c cs] := by
    simp only [update_component_run, hmap, hread, if_neg hcs0]
    by_cases hc : cur = some cs
    · simp [hc]
    · simp only [hc, if_false, if_neg hc]
      cases env.putComponent c cs <;> rfl
  refine ⟨fun hc => by rw [key, if_pos hc], fun hc => by rw [key, if_neg hc], ?_⟩
  intro i v hmem hc
  rw [key, if_pos hc] at hmem
  simp at hmem

/-! ## Lemmas: SystemExit is unreachable for tracked monitors -/

theorem postAll_no_systemExit (env : RemoteEnv) (mid : String) (rs : List ResponseTime)
    (c : Nat) : (postAll env mid rs).2 ≠ .error (.systemExit c) := by
  induction rs with
  | nil => simp [postAll]
  | cons r rs ih =>
    unfold postAll
    cases h : env.postPoint mid r.value r.datetime with
    | error e => simp
    | ok u => simpa using ih

theorem sync_no_systemExit (env : RemoteEnv) (ml : List (String × WebsiteConfig))
    (m : MonitorData) (cfg : WebsiteConfig) (hcfg : lookupRoute ml m.url = some cfg)
    (c : Nat) : (sync_metric_run env ml m).2 ≠ .error (.systemExit c) := by
  unfold sync_metric_run _get_website_config
  rw [hcfg]
  simp only
  cases hmp : env.metricPages (cfg.metric_id.getD "") with
  | error e => simp
  | ok pages =>
    simp only
    exact postAll_no_systemExit env _ _ c

theorem send_no_systemExit (env : RemoteEnv) (ml : List (String × WebsiteConfig))
    (m : MonitorData) (cfg : WebsiteConfig) (hcfg : lookupRoute ml m.url = some cfg)
    (c : Nat) : (send_data_to_cachet_run env ml m).2 ≠ .error (.systemExit c) := by
  unfold send_data_to_cachet_run _get_website_config
  rw [hcfg]
  simp only
  split
  · simp
  · split
    · exact sync_no_systemExit env ml m cfg hcfg c
    · simp

/-! ## Lemmas: the update loop runs to completion -/

theorem updateLoop_eq_map (env : RemoteEnv) (ml : List (String × WebsiteConfig))
    (ms : List MonitorData) :
    (updateLoop env ml ms).2 = .ok (ms.map (procOne env ml)) := by
  induction ms with
  | nil => rfl
  | cons m rest ih =>
    by_cases hin : (lookupRoute ml m.url).isSome
    · cases hr : (send_data_to_cachet_run env ml m).2 with
      | ok u => simp [updateLoop, procOne, hin, hr, ih, Except.map]
      | error pe =>
        cases pe with
        | exc e => simp [updateLoop, procOne, hin, hr, ih, Except.map]
        | systemExit c =>
          obtain ⟨cfg, hcfg⟩ := Option.isSome_iff_exists.mp hin
          exact absurd hr (send_no_systemExit env ml m cfg hcfg c)
    · simp [updateLoop, procOne, hin, ih, Except.map]

theorem updateLoop_trace_append (env : RemoteEnv) (ml : List (String × WebsiteConfig))
    (ms ns : List MonitorData) :
    (updateLoop env ml (ms ++ ns)).1 =
      (updateLoop env ml ms).1 ++ (updateLoop env ml ns).1 := by
  induction ms with
  | nil => simp [updateLoop]
  | cons m rest ih =>
    by_cases hin : (lookupRoute ml m.url).isSome
    · cases hr : (send_data_to_cachet_run env ml m).2 with
      | ok u => simp [updateLoop, hin, hr, ih]
      | error pe =>
        cases pe with
        | exc e => simp [updateLoop, hin, hr, ih]
        | systemExit c =>
          obtain ⟨cfg, hcfg⟩ := Option.isSome_iff_exists.mp hin
          exact absurd hr (send_no_systemExit env ml m cfg hcfg c)
    · simp [updateLoop, hin, ih]

/-! ## Claim theorems: the reconciliation run -/

/-- C6: an `Exception` raised while processing one tracked monitor is caught
and recorded with that monitors display name, every other monitor of the list
is still processed exactly as it would be on its own, and both the loop and
the surrounding `update` run complete normally instead of propagating the
exception. -/
theorem C6_per_monitor_fault_isolation
    (env : RemoteEnv) (ml : List (String × WebsiteConfig))
    (pre post : List MonitorData) (m : MonitorData) (e : String) (tr : List Effect)
    (hin : (lookupRoute ml m.url).isSome = true)
    (hfail : send_data_to_cachet_run env ml m = (tr, .error (.exc e))) :
    (updateLoop env ml (pre ++ m :: post)).2 =
      .ok (pre.map (procOne env ml) ++
        Outcome.failedLogged m.friendly_name e :: post.map (procOne env ml)) ∧
    (update_run env ml (.ok (true, pre ++ m :: post))).2 =
      .ok (.ran (pre.map (procOne env ml) ++
        Outcome.failedLogged m.friendly_name e :: post.map (procOne env ml))) := by
  have h2 : (send_data_to_cachet_run env ml m).2 = .error (.exc e) := by rw [hfail]
  have hm : procOne env ml m = .failedLogged m.friendly_name e := by
    simp [procOne, hin, h2]
  have hloop : (updateLoop env ml (pre ++ m :: post)).2 =
      .ok (pre.map (procOne env ml) ++
        Outcome.failedLogged m.friendly_name e :: post.map (procOne env ml)) := by
    rw [updateLoop_eq_map, List.map_append, List.map_cons, hm]
  refine ⟨hloop, ?_⟩
  simp [update_run, hloop, Except.map]

/-- C7: `get_monitors` reports logical success exactly when the decoded
payload has a `stat` field equal to the string `ok`; in every case the raw
payload is returned alongside the flag. -/
theorem C7_logical_success_sentinel (j : List (String × JVal)) :
    ((get_monitors_result j).1 = true ↔ dictGet j "stat" = some (.jstr "ok")) ∧
    (get_monitors_result j).2 = j := by
  constructor
  · constructor
    · intro h
      unfold get_monitors_result at h
      by_cases ht : dictGetTruthy j "stat" = true
      · rw [if_pos ht] at h
        by_cases hs : dictGet j "stat" = some (.jstr "ok")
        · exact hs
        · rw [if_neg hs] at h
          simp at h
      · rw [if_neg ht] at h
        simp at h
    · intro h
      unfold get_monitors_result
      have ht : dictGetTruthy j "stat" = true := by
        unfold dictGetTruthy
        rw [h]
        rfl
      rw [if_pos ht, if_pos h]
  · unfold get_monitors_result
    split_ifs <;> rfl

/-- C8: a fetched monitor whose URL has no route entry is skipped: it
contributes no request at all to the trace of the run, and the loop completes
with every other monitor processed as it would be on its own. -/
theorem C8_join_invariant_skip
    (env : RemoteEnv) (ml : List (String × WebsiteConfig))
    (pre post : List MonitorData) (m : MonitorData)
    (hnone : lookupRoute ml m.url = none) :
    (updateLoop env ml (pre ++ m :: post)).2 =
      .ok (pre.map (procOne env ml) ++
        Outcome.skipped m.url :: post.map (procOne env ml)) ∧
    (updateLoop env ml (pre ++ m :: post)).1 =
      (updateLoop env ml pre).1 ++ (updateLoop env ml post).1 := by
  have hin : (lookupRoute ml m.url).isSome = false := by
    rw [hnone]
    rfl
  have hm : procOne env ml m = .skipped m.url := by
    simp [procOne, hin]
  constructor
  · rw [updateLoop_eq_map, List.map_append, List.map_cons, hm]
  · rw [updateLoop_trace_append]
    congr 1
    simp [updateLoop, hin]

/-- C9: a configuration with no sections makes the process exit with the
non-zero code 1 before any request is issued: the trace of the whole `main`
run is empty, whatever the network would have answered. -/
theorem C9_fatal_config_exit (env : RemoteEnv)
    (fetch : Except String (Bool × List MonitorData)) :
    main_run [] env fetch = ([], .error (.systemExit 1)) ∧ (1 : Nat) ≠ 0 :=
  ⟨rfl, by decide⟩

/-- C10: for a monitor that passed the `url in monitor_list` guard,
`_get_website_config` returns the route entry, the `sys.exit(1)` branch is
unreachable (no per-monitor run ends in `SystemExit`), and no run of the
update loop or of `update` itself ends in `SystemExit`. -/
theorem C10_route_exit_unreachable
    (env : RemoteEnv) (ml : List (String × WebsiteConfig))
    (ms : List MonitorData) (m : MonitorData) (cfg : WebsiteConfig)
    (hm : lookupRoute ml m.url = some cfg) :
    _get_website_config ml m = .ok cfg ∧
    (∀ c, (send_data_to_cachet_run env ml m).2 ≠ .error (.systemExit c)) ∧
    (∀ c, (updateLoop env ml ms).2 ≠ .error (.systemExit c)) ∧
    (∀ c, (update_run env ml (.ok (true, ms))).2 ≠ .error (.systemExit c)) := by
  refine ⟨?_, fun c => send_no_systemExit env ml m cfg hm c, fun c => ?_, fun c => ?_⟩
  · unfold _get_website_config
    rw [hm]
  · rw [updateLoop_eq_map]
    simp
  · simp [update_run, updateLoop_eq_map, Except.map]

/-! ## Witness theorems: the claim theorems applied at concrete inputs -/

/-- C1 witness: monitor `monA3` (samples at 100 and 200), latest stored point
at 150 — exactly the spec end-to-end example. -/
theorem C1_witness :
    lookupRoute mlA monA3.url = some cfg3 ∧
    envA.metricPages (cfg3.metric_id.getD "") =
      .ok [[{ value := some 3, created_at := 150 }]] ∧
    (List.Perm (postedSamples (sync_metric_run envA mlA monA3).1)
      ((monA3.response_times.filter (fun x =>
          _date_str_to_unixtime
            (get_last_metric_point [[{ value := some 3, created_at := 150 }]]
              envA.localToday).created_at < x.datetime)).map
        (fun r => (r.value, r.datetime))) ∧
     List.Pairwise (fun a b => a.2 ≤ b.2)
       (postedSamples (sync_metric_run envA mlA monA3).1)) :=
  ⟨by decide, rfl,
   C1_metric_dedup_and_ordering envA mlA monA3 cfg3
     [[{ value := some 3, created_at := 150 }]] (by decide) rfl (fun _ _ => rfl)⟩

/-- C2 witness: in `pagesB` the point at epoch 50 on the last page is the
global maximum, and the returned point attains it. -/
theorem C2_witness :
    ({ value := some 2, created_at := 50 } : MetricPoint) ∈
      pagesB.getD (pagesB.length - 1) [] ∧
    (get_last_metric_point pagesB 0 ∈ pagesB.flatten ∧
     ∀ q ∈ pagesB.flatten,
       q.created_at ≤ (get_last_metric_point pagesB 0).created_at) :=
  ⟨by decide,
   C2_pagination_last_page_max pagesB 0 { value := some 2, created_at := 50 }
     (by decide) (by decide)⟩

/-- C3 witness: empty metric `m0`, clock at UTC epoch 604800 with offset 0
(local day 7): cutoff 604800, and of the samples at 604700 and 604900 only
the later one is appended. -/
theorem C3_witness :
    lookupRoute mlA monA0.url = some cfg0 ∧
    envA.metricPages (cfg0.metric_id.getD "") = .ok [] ∧
    envA.localToday = localDay 604800 0 ∧
    ((get_last_metric_point [] envA.localToday).created_at =
       86400 * localDay 604800 0 ∧
     ∀ p ∈ postedSamples (sync_metric_run envA mlA monA0).1,
       86400 * localDay 604800 0 < p.2) :=
  ⟨by decide, rfl, by decide,
   C3_empty_metric_bootstrap_local_day envA mlA monA0 cfg0 [] 604800 0
     (by decide) rfl rfl (by decide) (fun _ _ => rfl)⟩

/-- C4 witness: the paused code 0 is unmapped and performs no request. -/
theorem C4_witness :
    ((0 : Int) ≠ UPTIME_ROBOT_NOT_CHECKED_YET ∧ (0 : Int) ≠ UPTIME_ROBOT_UP ∧
     (0 : Int) ≠ UPTIME_ROBOT_SEEMS_DOWN ∧ (0 : Int) ≠ UPTIME_ROBOT_DOWN) ∧
    (mapStatus 0 = none ∧ update_component_run envA "c1" 0 = ([], .ok ())) :=
  ⟨⟨by decide, by decide, by decide, by decide⟩,
   C4_status_mapping_totality.2.2.2.2 envA "c1" 0
     (by decide) (by decide) (by decide) (by decide)⟩

/-- C5 witness: provider code 9 maps to 4; the current status reads 1, so the
trace is the GET followed by the PUT to 4. -/
theorem C5_witness :
    mapStatus 9 = some 4 ∧
    envA.componentStatus "c1" = .ok (some 1) ∧
    ((some 1 = some (4 : Int) →
       (update_component_run envA "c1" 9).1 = [Effect.getComponent "c1"]) ∧
     (some 1 ≠ some (4 : Int) →
       (update_component_run envA "c1" 9).1 =
         [Effect.getComponent "c1", Effect.putComponent "c1" 4]) ∧
     (∀ i v, Effect.putComponent i v ∈ (update_component_run envA "c1" 9).1 →
       some 1 ≠ some (4 : Int))) :=
  ⟨by decide, rfl, C5_idempotence_guard envA "c1" 9 4 (some 1) (by decide) rfl⟩

/-- C6 witness: three tracked monitors where the second raises during its
component read; the loop records the failure under its display name and the
other two are processed. -/
theorem C6_witness :
    (lookupRoute mlA monA2.url).isSome = true ∧
    send_data_to_cachet_run envA mlA monA2 =
      ([Effect.getComponent "c2"], .error (.exc "boom")) ∧
    ((updateLoop envA mlA ([monA1] ++ monA2 :: [monA3])).2 =
      .ok ([monA1].map (procOne envA mlA) ++
        Outcome.failedLogged monA2.friendly_name "boom" ::
          [monA3].map (procOne envA mlA)) ∧
     (update_run envA mlA (.ok (true, [monA1] ++ monA2 :: [monA3]))).2 =
      .ok (.ran ([monA1].map (procOne envA mlA) ++
        Outcome.failedLogged monA2.friendly_name "boom" ::
          [monA3].map (procOne envA mlA)))) :=
  ⟨by decide, rfl,
   C6_per_monitor_fault_isolation envA mlA [monA1] [monA3] monA2 "boom"
     [Effect.getComponent "c2"] (by decide) rfl⟩

/-- C8 witness: the untracked monitor between two tracked ones is skipped and
contributes no request. -/
theorem C8_witness :
    lookupRoute mlA monUn.url = none ∧
    ((updateLoop envA mlA ([monA1] ++ monUn :: [monA3])).2 =
      .ok ([monA1].map (procOne envA mlA) ++
        Outcome.skipped monUn.url :: [monA3].map (procOne envA mlA)) ∧
     (updateLoop envA mlA ([monA1] ++ monUn :: [monA3])).1 =
      (updateLoop envA mlA [monA1]).1 ++ (updateLoop envA mlA [monA3]).1) :=
  ⟨by decide, C8_join_invariant_skip envA mlA [monA1] [monA3] monUn (by decide)⟩

/-- C10 witness: tracked monitor `monA1` with route `cfg1`; no run ends in
`SystemExit`. -/
theorem C10_witness :
    lookupRoute mlA monA1.url = some cfg1 ∧
    (_get_website_config mlA monA1 = .ok cfg1 ∧
     (∀ c, (send_data_to_cachet_run envA mlA monA1).2 ≠ .error (.systemExit c)) ∧
     (∀ c, (updateLoop envA mlA [monA1, monA2]).2 ≠ .error (.systemExit c)) ∧
     (∀ c, (update_run envA mlA (.ok (true, [monA1, monA2]))).2 ≠
       .error (.systemExit c))) :=
  ⟨by decide,
   C10_route_exit_unreachable envA mlA [monA1, monA2] monA1 cfg1 (by decide)⟩
